import Mathlib

/-!
Verification development for the multi-provider email verification
aggregation engine (`email_verification_manager.py`, `services/*.py`,
`database.py`).

Modelling conventions:
* Python dicts produced by the adapters are modelled by the structure
  `VerificationResult` whose fields are all `Option`-valued; a missing
  dict key and a key stored with value `None` both become `none`, which
  matches every access the code performs (`dict.get`).
* Python floats are modelled by `ℚ` (exact real arithmetic).
* Opaque JSON payloads (the `details` field) are modelled by `String`.
* The network is modelled by an oracle passed to each adapter:
  `Except String D` is the outcome of the single HTTP round-trip
  (`Except.error e` = any exception raised while requesting or decoding,
  carrying `str(e)`).  Each adapter returns its result together with a
  `Bool` recording whether the oracle was consulted (a network call).
* Thread-pool completion order (`as_completed`) is modelled by letting
  the aggregate loop take the completion-ordered list of per-adapter
  outcomes as an explicit argument.
* Timestamps (`verification_date`) are not modelled; no claim is about
  them.
-/

/-- Truthiness of an optional Python string (`if not self.api_key`):
`None` and the empty string are falsy. -/
def truthy : Option String → Bool
  | none => false
  | some s => !(s == "")

/-- The normalized per-provider result dict built by each adapter in
`services/*.py` (all keys optional, mirroring `dict.get` access). -/
structure VerificationResult where
  email : Option String := none
  is_valid : Option Bool := none
  score : Option ℚ := none
  provider : Option String := none
  error : Option String := none
  details : Option String := none
deriving Repr, DecidableEq

/-- One row of the `email_verification` table (`database.py`,
`EmailVerification`); `verification_date` (a DB-assigned timestamp) is
omitted. -/
structure EmailVerificationRow where
  email : Option String
  is_valid : Option Bool
  score : Option ℚ
  provider : Option String
  details : Option String
deriving Repr, DecidableEq

/-- `EmailVerificationManager._store_verification_result`: skip when the
dict has no `email` key, otherwise insert one row built from the result
fields.  Returned as the list of rows written (empty or singleton). -/
def storeVerificationResult (result : VerificationResult) : List EmailVerificationRow :=
  if result.email.isSome then
    [⟨result.email, result.is_valid, result.score, result.provider, result.details⟩]
  else
    []

/-- A provider adapter as seen by the manager: `hasKey` is
`hasattr(service, 'api_key') and service.api_key` (truthiness), `verify`
is `service.verify_email` (`Except.error e` models the call raising an
exception with message `e`), and `bulk` is the native
`service.bulk_verify` when present (its provider-specific response is
opaque). -/
structure ServiceModel where
  hasKey : Bool
  verify : String → Except String VerificationResult
  bulk : Option (List String → Except String String)

/-- `EmailVerificationManager.get_available_services`: names of services
whose `api_key` attribute is truthy. -/
def get_available_services (services : List (String × ServiceModel)) : List String :=
  (services.filter (fun p => p.2.hasKey)).map (fun p => p.1)

/-- Python dict assignment `d[k] = v` on an insertion-ordered
association list: replace in place if the key exists, else append. -/
def dictInsert (l : List (String × VerificationResult)) (k : String)
    (v : VerificationResult) : List (String × VerificationResult) :=
  if l.any (fun p => p.1 == k) then
    l.map (fun p => if p.1 == k then (k, v) else p)
  else
    l ++ [(k, v)]

/-- Accumulator state of the `as_completed` loop in
`EmailVerificationManager.verify_email` (aggregate branch): the
`results` dict, the counters `valid_count` / `total_score` /
`service_count`, and the Result Store rows written so far. -/
structure AggLoopState where
  results : List (String × VerificationResult) := []
  valid_count : ℕ := 0
  total_score : ℚ := 0
  service_count : ℕ := 0
  writes : List EmailVerificationRow := []
deriving Repr, DecidableEq

/-- One iteration of the `as_completed` loop.  `o = (service_name,
outcome)`: on `future.result()` succeeding the result is recorded,
stored, and counted (`is_valid` truthy bumps `valid_count`; a non-`None`
`score` is accumulated); on the future raising `e`, the synthesized dict
`{email, error: str(e), provider: service_name}` is recorded and nothing
is stored or counted. -/
def aggStep (email : String) (st : AggLoopState)
    (o : String × Except String VerificationResult) : AggLoopState :=
  match o.2 with
  | .ok r =>
      { results := dictInsert st.results o.1 r
        valid_count := st.valid_count + (if r.is_valid = some true then 1 else 0)
        total_score := st.total_score + (if r.score.isSome then r.score.getD 0 else 0)
        service_count := st.service_count + (if r.score.isSome then 1 else 0)
        writes := st.writes ++ storeVerificationResult r }
  | .error e =>
      { st with
        results := dictInsert st.results o.1
          { email := some email, error := some e, provider := some o.1 } }

/-- The whole `as_completed` loop, over the completion-ordered list of
per-adapter outcomes. -/
def aggLoop (email : String)
    (outcomes : List (String × Except String VerificationResult)) : AggLoopState :=
  outcomes.foldl (aggStep email) {}

/-- The aggregate answer dict of `EmailVerificationManager.verify_email`
(no provider selected): `{email, is_valid, score, results, verified_by}`
(`verification_date` omitted). -/
structure AggregateResult where
  email : String
  is_valid : Option Bool
  score : Option ℚ
  results : List (String × VerificationResult)
  verified_by : ℕ
deriving Repr, DecidableEq

/-- Aggregate branch of `EmailVerificationManager.verify_email`, given
the completion-ordered outcomes of the dispatched adapter calls (one
entry per enabled adapter; `outcomes.length = len(available_services)`).
Computes the loop, then `is_valid = valid_count >= N / 2` when
`valid_count > 0` (else absent) and `score = total_score /
service_count` when `service_count > 0` (else absent).  Returns the
aggregate dict together with the Result Store rows written. -/
def verify_email_all (email : String)
    (outcomes : List (String × Except String VerificationResult)) :
    AggregateResult × List EmailVerificationRow :=
  let st := aggLoop email outcomes
  let is_valid : Option Bool :=
    if st.valid_count > 0 then
      some (decide (((outcomes.length : ℚ) / 2) ≤ (st.valid_count : ℚ)))
    else none
  let aggregate_score : Option ℚ :=
    if st.service_count > 0 then some (st.total_score / (st.service_count : ℚ))
    else none
  ({ email := email
     is_valid := is_valid
     score := aggregate_score
     results := st.results
     verified_by := st.results.length }, st.writes)

/-! ### Provider adapters (`services/*.py`)

Each adapter takes its configuration, the outcome of its single network
round-trip (an oracle value), and the address, and returns the result
dict together with a `Bool` that is `true` exactly when the network was
consulted. -/

/-- Decoded JSON of a ZeroBounce `/validate` response: the `status`
field plus the opaque raw payload (kept as `details`). -/
structure ZeroBounceData where
  status : Option String := none
  raw : String := ""
deriving Repr, DecidableEq

/-- `ZeroBounceService.verify_email`: missing key short-circuits;
otherwise `is_valid = (status == "valid")` and `score` is `1.0` or
`0.0`; any request/decoding exception is caught and reported. -/
def ZeroBounceService.verify_email (api_key : Option String)
    (net : Except String ZeroBounceData) (email : String) :
    VerificationResult × Bool :=
  if !(truthy api_key) then
    ({ email := some email, is_valid := none,
       error := some "API key not provided", provider := some "zerobounce" }, false)
  else
    match net with
    | .ok data =>
        let is_valid := data.status == some "valid"
        ({ email := some email, is_valid := some is_valid,
           score := some (if is_valid then 1 else 0),
           provider := some "zerobounce", details := some data.raw }, true)
    | .error e =>
        ({ email := some email, is_valid := none, error := some e,
           provider := some "zerobounce" }, true)

/-- Decoded JSON of a MailboxLayer `/check` response.  `error_info` is
`data["error"]["info"]` when the payload carries an `error` key (the
code then raises and catches its own exception). -/
structure MailboxLayerData where
  error_info : Option String := none
  format_valid : Option Bool := none
  mx_found : Option Bool := none
  smtp_check : Option Bool := none
  disposable : Option Bool := none
  free : Option Bool := none
  raw : String := ""
deriving Repr, DecidableEq

/-- The five boolean score factors of
`MailboxLayerService.verify_email` (`format_valid`, `mx_found`,
`smtp_check` default `False`; `disposable` defaults `True` and is
negated; `free` is negated when present, else counts as `True`). -/
def MailboxLayerService.score_factors (data : MailboxLayerData) : List Bool :=
  [data.format_valid.getD false,
   data.mx_found.getD false,
   data.smtp_check.getD false,
   !(data.disposable.getD true),
   match data.free with
   | some b => !b
   | none => true]

/-- `MailboxLayerService.verify_email`: missing key short-circuits; an
`error` key in the payload raises (caught by the adapter itself, so the
error info string lands in `error`); otherwise `is_valid` is the
conjunction of `format_valid`, `mx_found`, `smtp_check` and `score` is
the fraction of the five factors that hold. -/
def MailboxLayerService.verify_email (api_key : Option String)
    (net : Except String MailboxLayerData) (email : String) :
    VerificationResult × Bool :=
  if !(truthy api_key) then
    ({ email := some email, is_valid := none,
       error := some "API key not provided", provider := some "mailboxlayer" }, false)
  else
    match net with
    | .ok data =>
        match data.error_info with
        | some info =>
            ({ email := some email, is_valid := none, error := some info,
               provider := some "mailboxlayer" }, true)
        | none =>
            let is_valid := (data.format_valid.getD false) &&
              (data.mx_found.getD false) && (data.smtp_check.getD false)
            let score : ℚ :=
              ((MailboxLayerService.score_factors data).count true : ℚ) /
                ((MailboxLayerService.score_factors data).length : ℚ)
            ({ email := some email, is_valid := some is_valid,
               score := some score, provider := some "mailboxlayer",
               details := some data.raw }, true)
    | .error e =>
        ({ email := some email, is_valid := none, error := some e,
           provider := some "mailboxlayer" }, true)

/-- Decoded JSON of a NeutrinoAPI `/email-validate` response
(`syn_valid` stands for the `"syntax.valid"` key, `domain_exists` for
`"domain.exists"`, `domain_has_mx` for `"domain.has-mx"`,
`is_freemail` for `"is-freemail"`). -/
structure NeutrinoData where
  valid : Option Bool := none
  syn_valid : Option Bool := none
  disposable : Option Bool := none
  domain_exists : Option Bool := none
  domain_has_mx : Option Bool := none
  is_freemail : Option Bool := none
  raw : String := ""
deriving Repr, DecidableEq

/-- The six boolean score factors of `NeutrinoAPIService.verify_email`. -/
def NeutrinoAPIService.score_factors (data : NeutrinoData) : List Bool :=
  [data.valid.getD false,
   data.syn_valid.getD false,
   !(data.disposable.getD true),
   data.domain_exists.getD false,
   data.domain_has_mx.getD false,
   match data.is_freemail with
   | some b => !b
   | none => true]

/-- `NeutrinoAPIService.verify_email`: requires both `user_id` and
`api_key` (else `error = "API credentials not provided"`); otherwise
`is_valid = result.get("valid", False)` and `score` is the fraction of
the six factors that hold. -/
def NeutrinoAPIService.verify_email (user_id api_key : Option String)
    (net : Except String NeutrinoData) (email : String) :
    VerificationResult × Bool :=
  if !(truthy api_key && truthy user_id) then
    ({ email := some email, is_valid := none,
       error := some "API credentials not provided", provider := some "neutrinoapi" }, false)
  else
    match net with
    | .ok data =>
        let score : ℚ :=
          ((NeutrinoAPIService.score_factors data).count true : ℚ) /
            ((NeutrinoAPIService.score_factors data).length : ℚ)
        ({ email := some email, is_valid := some (data.valid.getD false),
           score := some score, provider := some "neutrinoapi",
           details := some data.raw }, true)
    | .error e =>
        ({ email := some email, is_valid := none, error := some e,
           provider := some "neutrinoapi" }, true)

/-- Decoded JSON of a Spokeo search response: `isDict` records whether
the payload is a JSON object (`isinstance(data, dict)`), `found` its
`found` key. -/
structure SpokeoData where
  isDict : Bool := true
  found : Option Bool := none
  raw : String := ""
deriving Repr, DecidableEq

/-- `SpokeoService.verify_email`: `is_valid = data.get("found", False)`
when the payload is a dict (else `False`), `score` is `1.0` or `0.0`,
`details` is the payload or `{}`. -/
def SpokeoService.verify_email (api_key : Option String)
    (net : Except String SpokeoData) (email : String) :
    VerificationResult × Bool :=
  if !(truthy api_key) then
    ({ email := some email, is_valid := none,
       error := some "API key not provided", provider := some "spokeo" }, false)
  else
    match net with
    | .ok data =>
        let is_valid := if data.isDict then data.found.getD false else false
        ({ email := some email, is_valid := some is_valid,
           score := some (if is_valid then 1 else 0),
           provider := some "spokeo",
           details := some (if data.isDict then data.raw else "\x7b\x7d") }, true)
    | .error e =>
        ({ email := some email, is_valid := none, error := some e,
           provider := some "spokeo" }, true)

/-- Decoded JSON of a Hunter `email-verifier` response (the inner
`data` object): `status`, the provider-reported `score`, raw payload. -/
structure HunterData where
  status : Option String := none
  score : Option ℚ := none
  raw : String := ""
deriving Repr, DecidableEq

/-- `HunterService.verify_email`: `is_valid` iff `status` is `"valid"`
or `"webmail"`; `score = data.get("score", 0)` — the provider-reported
score passed through verbatim. -/
def HunterService.verify_email (api_key : Option String)
    (net : Except String HunterData) (email : String) :
    VerificationResult × Bool :=
  if !(truthy api_key) then
    ({ email := some email, is_valid := none,
       error := some "API key not provided", provider := some "hunter" }, false)
  else
    match net with
    | .ok data =>
        let is_valid := data.status == some "valid" || data.status == some "webmail"
        ({ email := some email, is_valid := some is_valid,
           score := some (data.score.getD 0),
           provider := some "hunter", details := some data.raw }, true)
    | .error e =>
        ({ email := some email, is_valid := none, error := some e,
           provider := some "hunter" }, true)

/-! ### The manager (`email_verification_manager.py`) -/

/-- The credentials resolved from the environment at construction
(`EmailVerificationManager.__init__` builds each service, which reads
its key(s) from `os.getenv`). -/
structure ManagerConfig where
  zerobounce_key : Option String := none
  mailboxlayer_key : Option String := none
  neutrinoapi_user_id : Option String := none
  neutrinoapi_key : Option String := none
  spokeo_key : Option String := none
  hunter_key : Option String := none

/-- The network, one oracle per provider endpoint; the `*_bulk` oracles
return the provider-specific native bulk response as an opaque payload. -/
structure NetworkOracle where
  zb : String → Except String ZeroBounceData
  mbl : String → Except String MailboxLayerData
  neu : String → Except String NeutrinoData
  spo : String → Except String SpokeoData
  hun : String → Except String HunterData
  zb_bulk : List String → Except String String
  mbl_bulk : List String → Except String String
  neu_bulk : List String → Except String String
  spo_bulk : List String → Except String String
  hun_bulk : List String → Except String String

/-- The service registry `self.services` built by
`EmailVerificationManager.__init__`, in dict insertion order.  Every
service has `hasKey = truthy api_key` (for NeutrinoAPI the manager only
inspects `api_key`, not `user_id`), its `verify` never raises (each
adapter catches internally), and its native `bulk_verify` is present. -/
def EmailVerificationManager.services (cfg : ManagerConfig) (net : NetworkOracle) :
    List (String × ServiceModel) :=
  [("zerobounce",
    { hasKey := truthy cfg.zerobounce_key
      verify := fun e => .ok (ZeroBounceService.verify_email cfg.zerobounce_key (net.zb e) e).1
      bulk := some net.zb_bulk }),
   ("mailboxlayer",
    { hasKey := truthy cfg.mailboxlayer_key
      verify := fun e => .ok (MailboxLayerService.verify_email cfg.mailboxlayer_key (net.mbl e) e).1
      bulk := some net.mbl_bulk }),
   ("neutrinoapi",
    { hasKey := truthy cfg.neutrinoapi_key
      verify := fun e => .ok (NeutrinoAPIService.verify_email cfg.neutrinoapi_user_id cfg.neutrinoapi_key (net.neu e) e).1
      bulk := some net.neu_bulk }),
   ("spokeo",
    { hasKey := truthy cfg.spokeo_key
      verify := fun e => .ok (SpokeoService.verify_email cfg.spokeo_key (net.spo e) e).1
      bulk := some net.spo_bulk }),
   ("hunter",
    { hasKey := truthy cfg.hunter_key
      verify := fun e => .ok (HunterService.verify_email cfg.hunter_key (net.hun e) e).1
      bulk := some net.hun_bulk })]

/-- The three dict shapes `EmailVerificationManager.verify_email` can
return: a single adapter result passed through, the aggregate dict, or
an error dict `{email, error, verified: False}`. -/
inductive ManagerResponse where
  | single (r : VerificationResult)
  | aggregate (a : AggregateResult)
  | failure (email : String) (error : String)
deriving Repr, DecidableEq

/-- `response.get("is_valid")` on a manager response. -/
def ManagerResponse.getIsValid : ManagerResponse → Option Bool
  | .single r => r.is_valid
  | .aggregate _a => _a.is_valid
  | .failure _ _ => none

/-- `response.get("error")` on a manager response. -/
def ManagerResponse.getError : ManagerResponse → Option String
  | .single r => r.error
  | .aggregate _ => none
  | .failure _ e => some e

/-- The outcomes of the calls dispatched by the aggregate branch, in
dispatch order: one `service.verify_email(email)` per available
service. -/
def dispatched (services : List (String × ServiceModel)) (email : String) :
    List (String × Except String VerificationResult) :=
  (services.filter (fun p => p.2.hasKey)).map (fun p => (p.1, p.2.verify email))

/-- `EmailVerificationManager.verify_email`.  With a service name:
unknown names give the error dict, otherwise the adapter is called
directly (no enablement check), its result stored and returned — an
exception there propagates (`Except.error`).  Without a name: if no
service is available the error dict is returned with nothing stored,
otherwise the aggregate branch runs over the completion-ordered
outcomes of the dispatched calls (`completion` is a permutation of
`dispatched services email`).  Paired with the Result Store rows
written. -/
def EmailVerificationManager.verify_email (services : List (String × ServiceModel))
    (email : String) (service_name : Option String)
    (completion : List (String × Except String VerificationResult)) :
    Except String (ManagerResponse × List EmailVerificationRow) :=
  match service_name with
  | some name =>
    match services.lookup name with
    | none => .ok (.failure email ("Service \x27" ++ name ++ "\x27 not found"), [])
    | some s =>
      match s.verify email with
      | .ok r => .ok (.single r, storeVerificationResult r)
      | .error e => .error e
  | none =>
    if get_available_services services = [] then
      .ok (.failure email "No verification services are configured with API keys", [])
    else
      let p := verify_email_all email completion
      .ok (.aggregate p.1, p.2)

/-- `EmailVerificationManager.verify_email` run at the canonical
completion order (dispatch order). -/
def EmailVerificationManager.verify_email_run (services : List (String × ServiceModel))
    (email : String) (service_name : Option String) :
    Except String (ManagerResponse × List EmailVerificationRow) :=
  EmailVerificationManager.verify_email services email service_name
    (dispatched services email)

/-- The dict shapes `EmailVerificationManager.bulk_verify` can return:
an error dict, a provider-native bulk payload, or
`{"results": [...]}`. -/
inductive BulkResponse where
  | failure (error : String)
  | native (payload : String)
  | list (results : List ManagerResponse)
deriving Repr, DecidableEq

/-- The fallback loop of `bulk_verify` for a named service without a
native bulk endpoint: sequential `service.verify_email` calls, an
exception propagating (`Except.error`). -/
def bulkFallbackLoop (s : ServiceModel) : List String → Except String (List VerificationResult)
  | [] => .ok []
  | e :: rest => do
    let r ← s.verify e
    let rs ← bulkFallbackLoop s rest
    .ok (r :: rs)

/-- The no-provider loop of `bulk_verify`: `self.verify_email(email)`
once per address in input order, collecting the responses and the
Result Store writes of each call in sequence. -/
def bulkLoop (services : List (String × ServiceModel)) :
    List String → Except String (List ManagerResponse × List EmailVerificationRow)
  | [] => .ok ([], [])
  | e :: rest => do
    let p ← EmailVerificationManager.verify_email_run services e none
    let q ← bulkLoop services rest
    .ok (p.1 :: q.1, p.2 ++ q.2)

/-- `EmailVerificationManager.bulk_verify`.  Empty input and unknown
names give error dicts.  A named service with a native `bulk_verify`
delegates to it (nothing stored); without one, it falls back to
sequential `service.verify_email` calls (nothing stored).  With no name,
`self.verify_email(email)` runs once per address in input order, and the
per-call Result Store writes accumulate in sequence. -/
def EmailVerificationManager.bulk_verify (services : List (String × ServiceModel))
    (emails : List String) (service_name : Option String) :
    Except String (BulkResponse × List EmailVerificationRow) :=
  if emails = [] then .ok (.failure "No emails provided", [])
  else
    match service_name with
    | some name =>
      match services.lookup name with
      | none => .ok (.failure ("Service \x27" ++ name ++ "\x27 not found"), [])
      | some s =>
        match s.bulk with
        | some f => (f emails).map (fun payload => (.native payload, []))
        | none =>
          (bulkFallbackLoop s emails).map
            (fun rs => (.list (rs.map ManagerResponse.single), []))
    | none =>
      (bulkLoop services emails).map (fun q => (.list q.1, q.2))

/-! ### Characterization of the aggregate loop -/

/-- The entry recorded in the `results` dict for one dispatched call:
the returned dict on success, the synthesized `{email, error: str(e),
provider}` dict when the future raised. -/
def synthResult (email : String) (o : String × Except String VerificationResult) :
    VerificationResult :=
  match o.2 with
  | .ok r => r
  | .error e => { email := some email, error := some e, provider := some o.1 }

/-- Outcomes whose future returned a result with `is_valid` truthy. -/
def okValid (o : String × Except String VerificationResult) : Bool :=
  match o.2 with
  | .ok r => r.is_valid == some true
  | .error _ => false

/-- `valid_count`: dispatched calls that returned `is_valid = true`. -/
def countValid (outcomes : List (String × Except String VerificationResult)) : ℕ :=
  outcomes.countP okValid

/-- Outcomes whose future raised. -/
def isErrOutcome (o : String × Except String VerificationResult) : Bool :=
  match o.2 with
  | .ok _ => false
  | .error _ => true

/-- The scores present among the successfully returned results, in
completion order. -/
def okScores (outcomes : List (String × Except String VerificationResult)) : List ℚ :=
  outcomes.filterMap (fun o =>
    match o.2 with
    | .ok r => r.score
    | .error _ => none)

/-- The successfully returned results, in completion order. -/
def okResults (outcomes : List (String × Except String VerificationResult)) :
    List VerificationResult :=
  outcomes.filterMap (fun o => o.2.toOption)

deriving instance DecidableEq for Except

/-! ### Concrete instances used to exercise the theorems -/

/-- A network on which every request raises (machine offline); adapters
that short-circuit never consult it. -/
def offlineOracle : NetworkOracle :=
  { zb := fun _ => .error "offline"
    mbl := fun _ => .error "offline"
    neu := fun _ => .error "offline"
    spo := fun _ => .error "offline"
    hun := fun _ => .error "offline"
    zb_bulk := fun _ => .error "offline"
    mbl_bulk := fun _ => .error "offline"
    neu_bulk := fun _ => .error "offline"
    spo_bulk := fun _ => .error "offline"
    hun_bulk := fun _ => .error "offline" }

/-- A manager configuration with only the ZeroBounce key set. -/
def demoConfig : ManagerConfig := { zerobounce_key := some "k" }

/-- A network on which only ZeroBounce answers (with a `valid` status). -/
def demoOracle : NetworkOracle :=
  { offlineOracle with zb := fun _ => .ok { status := some "valid", raw := "zb-payload" } }

/-- The registry entry the demo manager holds for ZeroBounce. -/
def demoZBModel : ServiceModel :=
  { hasKey := truthy demoConfig.zerobounce_key
    verify := fun e =>
      .ok (ZeroBounceService.verify_email demoConfig.zerobounce_key (demoOracle.zb e) e).1
    bulk := some demoOracle.zb_bulk }

/-- The result the demo ZeroBounce adapter returns for `a@x.com`. -/
def demoZBResult : VerificationResult :=
  (ZeroBounceService.verify_email demoConfig.zerobounce_key (demoOracle.zb "a@x.com") "a@x.com").1

/-- Four enabled adapters reporting `is_valid` = true, false, false,
unknown (the fourth errored). -/
def exC1 : List (String × Except String VerificationResult) :=
  [("zerobounce", .ok { email := some "a@x.com", is_valid := some true, score := some 1, provider := some "zerobounce" }),
   ("mailboxlayer", .ok { email := some "a@x.com", is_valid := some false, provider := some "mailboxlayer" }),
   ("spokeo", .ok { email := some "a@x.com", is_valid := some false, provider := some "spokeo" }),
   ("hunter", .ok { email := some "a@x.com", error := some "timeout", provider := some "hunter" })]

/-- Four enabled adapters reporting `is_valid` = true, true, false,
unknown. -/
def exC2 : List (String × Except String VerificationResult) :=
  [("zerobounce", .ok { email := some "a@x.com", is_valid := some true, score := some 1, provider := some "zerobounce" }),
   ("mailboxlayer", .ok { email := some "a@x.com", is_valid := some true, provider := some "mailboxlayer" }),
   ("spokeo", .ok { email := some "a@x.com", is_valid := some false, provider := some "spokeo" }),
   ("hunter", .ok { email := some "a@x.com", error := some "timeout", provider := some "hunter" })]

/-- Three dispatched adapters of which exactly the second raised. -/
def exC5 : List (String × Except String VerificationResult) :=
  [("zerobounce", .ok { email := some "a@x.com", is_valid := some true, provider := some "zerobounce" }),
   ("badsvc", .error "boom"),
   ("hunter", .ok { email := some "a@x.com", is_valid := some false, provider := some "hunter" })]

/-- Providers reporting scores 0.8, 0.6, absent, absent (the last one
errored). -/
def exC6 : List (String × Except String VerificationResult) :=
  [("zerobounce", .ok { email := some "a@x.com", is_valid := some true, score := some (4/5), provider := some "zerobounce" }),
   ("hunter", .ok { email := some "a@x.com", is_valid := some true, score := some (3/5), provider := some "hunter" }),
   ("spokeo", .ok { email := some "a@x.com", is_valid := some false, provider := some "spokeo" }),
   ("mailboxlayer", .error "timeout")]

/-- One successfully returned result next to one raised task. -/
def exC10 : List (String × Except String VerificationResult) :=
  [("zerobounce", .ok { email := some "a@x.com", is_valid := some true, score := some 1, provider := some "zerobounce", details := some "zb" }),
   ("badsvc", .error "boom")]

theorem dictInsert_fresh (l : List (String × VerificationResult)) (k : String)
    (v : VerificationResult) (h : k ∉ l.map Prod.fst) :
    dictInsert l k v = l ++ [(k, v)] := by
  have hany : l.any (fun p => p.1 == k) = false := by
    rw [List.any_eq_false]
    intro p hp
    simp only [beq_iff_eq]
    intro hk
    exact h (List.mem_map.mpr ⟨p, hp, hk⟩)
  simp [dictInsert, hany]

theorem aggStep_valid_count (email : String) (st : AggLoopState)
    (o : String × Except String VerificationResult) :
    (aggStep email st o).valid_count = st.valid_count + (if okValid o then 1 else 0) := by
  rcases o with ⟨n, x⟩
  cases x with
  | ok r => simp [aggStep, okValid, beq_iff_eq]
  | error e => simp [aggStep, okValid]

theorem aggStep_results (email : String) (st : AggLoopState)
    (o : String × Except String VerificationResult)
    (h : o.1 ∉ st.results.map Prod.fst) :
    (aggStep email st o).results = st.results ++ [(o.1, synthResult email o)] := by
  rcases o with ⟨n, x⟩
  cases x with
  | ok r => simpa [aggStep, synthResult] using dictInsert_fresh st.results n r h
  | error e =>
      simpa [aggStep, synthResult] using
        dictInsert_fresh st.results n
          { email := some email, error := some e, provider := some n } h

theorem foldl_aggStep_valid_count (email : String)
    (os : List (String × Except String VerificationResult)) :
    ∀ st : AggLoopState,
      (os.foldl (aggStep email) st).valid_count = st.valid_count + countValid os := by
  induction os with
  | nil => intro st; simp [countValid]
  | cons o rest ih =>
      intro st
      rw [List.foldl_cons, ih, aggStep_valid_count]
      simp only [countValid, List.countP_cons]
      omega

theorem foldl_aggStep_total_score (email : String)
    (os : List (String × Except String VerificationResult)) :
    ∀ st : AggLoopState,
      (os.foldl (aggStep email) st).total_score = st.total_score + (okScores os).sum := by
  induction os with
  | nil => intro st; simp [okScores]
  | cons o rest ih =>
      intro st
      rcases o with ⟨n, x⟩
      rw [List.foldl_cons, ih]
      cases x with
      | ok r =>
          cases hs : r.score with
          | none => simp [aggStep, okScores, hs]
          | some q => simp [aggStep, okScores, hs]; ring
      | error e => simp [aggStep, okScores]

theorem foldl_aggStep_service_count (email : String)
    (os : List (String × Except String VerificationResult)) :
    ∀ st : AggLoopState,
      (os.foldl (aggStep email) st).service_count = st.service_count + (okScores os).length := by
  induction os with
  | nil => intro st; simp [okScores]
  | cons o rest ih =>
      intro st
      rcases o with ⟨n, x⟩
      rw [List.foldl_cons, ih]
      cases x with
      | ok r =>
          cases hs : r.score with
          | none => simp [aggStep, okScores, hs]
          | some q => simp [aggStep, okScores, hs]; omega
      | error e => simp [aggStep, okScores]

theorem foldl_aggStep_writes (email : String)
    (os : List (String × Except String VerificationResult)) :
    ∀ st : AggLoopState,
      (os.foldl (aggStep email) st).writes =
        st.writes ++ ((okResults os).map storeVerificationResult).flatten := by
  induction os with
  | nil => intro st; simp [okResults]
  | cons o rest ih =>
      intro st
      rcases o with ⟨n, x⟩
      rw [List.foldl_cons, ih]
      cases x with
      | ok r => simp [aggStep, okResults, Except.toOption]
      | error e => simp [aggStep, okResults, Except.toOption]

theorem foldl_aggStep_results (email : String)
    (os : List (String × Except String VerificationResult)) :
    ∀ st : AggLoopState, (os.map Prod.fst).Nodup →
      (∀ k ∈ os.map Prod.fst, k ∉ st.results.map Prod.fst) →
      (os.foldl (aggStep email) st).results =
        st.results ++ os.map (fun o => (o.1, synthResult email o)) := by
  induction os with
  | nil => intro st _ _; simp
  | cons o rest ih =>
      intro st hnd hfresh
      have h1 : o.1 ∉ st.results.map Prod.fst := hfresh o.1 (by simp)
      have hstep := aggStep_results email st o h1
      have hnd' : (rest.map Prod.fst).Nodup := by
        simp only [List.map_cons, List.nodup_cons] at hnd
        exact hnd.2
      have hnotin : o.1 ∉ rest.map Prod.fst := by
        simp only [List.map_cons, List.nodup_cons] at hnd
        exact hnd.1
      have hfresh' : ∀ k ∈ rest.map Prod.fst,
          k ∉ (aggStep email st o).results.map Prod.fst := by
        intro k hk
        rw [hstep]
        simp only [List.map_append, List.mem_append, List.map_cons, List.map_nil,
          List.mem_singleton]
        rintro (hmem | hmem)
        · exact hfresh k (by simp [hk]) hmem
        · exact hnotin (by simpa [hmem] using hk)
      rw [List.foldl_cons, ih _ hnd' hfresh', hstep, List.append_assoc]
      simp

theorem aggLoop_valid_count (email : String)
    (os : List (String × Except String VerificationResult)) :
    (aggLoop email os).valid_count = countValid os := by
  simpa [aggLoop] using foldl_aggStep_valid_count email os {}

theorem aggLoop_total_score (email : String)
    (os : List (String × Except String VerificationResult)) :
    (aggLoop email os).total_score = (okScores os).sum := by
  simpa [aggLoop] using foldl_aggStep_total_score email os {}

theorem aggLoop_service_count (email : String)
    (os : List (String × Except String VerificationResult)) :
    (aggLoop email os).service_count = (okScores os).length := by
  simpa [aggLoop] using foldl_aggStep_service_count email os {}

theorem aggLoop_writes (email : String)
    (os : List (String × Except String VerificationResult)) :
    (aggLoop email os).writes = ((okResults os).map storeVerificationResult).flatten := by
  simpa [aggLoop] using foldl_aggStep_writes email os {}

theorem aggLoop_results (email : String)
    (os : List (String × Except String VerificationResult))
    (hnd : (os.map Prod.fst).Nodup) :
    (aggLoop email os).results = os.map (fun o => (o.1, synthResult email o)) := by
  have h := foldl_aggStep_results email os {} hnd (by intro k _ hk; simp at hk)
  simpa [aggLoop] using h

/-! ### Derived views of `verify_email_all` -/

theorem verify_email_all_is_valid (email : String)
    (os : List (String × Except String VerificationResult)) :
    (verify_email_all email os).1.is_valid =
      if 0 < countValid os then
        some (decide (((os.length : ℚ) / 2) ≤ (countValid os : ℚ)))
      else none := by
  simp [verify_email_all, aggLoop_valid_count]

theorem verify_email_all_score (email : String)
    (os : List (String × Except String VerificationResult)) :
    (verify_email_all email os).1.score =
      if 0 < (okScores os).length then
        some ((okScores os).sum / ((okScores os).length : ℚ))
      else none := by
  simp [verify_email_all, aggLoop_total_score, aggLoop_service_count]

theorem verify_email_all_writes (email : String)
    (os : List (String × Except String VerificationResult)) :
    (verify_email_all email os).2 = ((okResults os).map storeVerificationResult).flatten := by
  simp [verify_email_all, aggLoop_writes]

theorem verify_email_all_results (email : String)
    (os : List (String × Except String VerificationResult))
    (hnd : (os.map Prod.fst).Nodup) :
    (verify_email_all email os).1.results = os.map (fun o => (o.1, synthResult email o)) := by
  simp [verify_email_all, aggLoop_results email os hnd]

theorem verify_email_all_verified_by (email : String)
    (os : List (String × Except String VerificationResult))
    (hnd : (os.map Prod.fst).Nodup) :
    (verify_email_all email os).1.verified_by = os.length := by
  simp [verify_email_all, aggLoop_results email os hnd]

/-- For a natural count, the float comparison `valid_count >= N / 2`
performed by the code agrees with the ceiling-style integer threshold. -/
theorem half_le_iff_ceil_le (N v : ℕ) :
    (((N : ℚ) / 2) ≤ (v : ℚ)) ↔ (⌈(N : ℚ) / 2⌉ ≤ (v : ℤ)) := by
  rw [Int.ceil_le]
  constructor <;> intro h <;> exact_mod_cast h

/-! ### The claims -/

/-- C1 (counterexample): with 4 enabled adapters whose results report
`is_valid` = true, false, false, unknown, the aggregate `is_valid` is
`some false` — it is not absent, because `valid_count = 1 > 0` triggers
the majority comparison `1 >= 4 / 2`, which is false. -/
theorem claim_C1_counterexample :
    (verify_email_all "a@x.com" exC1).1.is_valid = some false ∧
    (verify_email_all "a@x.com" exC1).1.is_valid ≠ none := by
  have h : (verify_email_all "a@x.com" exC1).1.is_valid = some false := by
    rw [verify_email_all_is_valid]
    have hc : countValid exC1 = 1 := by decide
    rw [hc]
    norm_num [decide_eq_false_iff_not, exC1]
  exact ⟨h, by rw [h]; simp⟩

/-- C1 (amended): for every aggregate call with 4 enabled adapters of
which exactly one reported `is_valid = true` (e.g. results true, false,
false, unknown), the aggregate `is_valid` is `some false`, not
absent. -/
theorem claim_C1 (email : String)
    (outcomes : List (String × Except String VerificationResult))
    (hlen : outcomes.length = 4) (hv : countValid outcomes = 1) :
    (verify_email_all email outcomes).1.is_valid = some false := by
  rw [verify_email_all_is_valid, hv, hlen]
  norm_num [decide_eq_false_iff_not]

/-- C1 (witness): the amended claim applied to the concrete call of the
counterexample. -/
theorem claim_C1_witness :
    (verify_email_all "b@x.com" exC1).1.is_valid = some false :=
  claim_C1 "b@x.com" exC1 (by decide) (by decide)

/-- C2: for every aggregate call with at least one enabled adapter, the
aggregate `is_valid` is absent exactly when no dispatched provider
returned `is_valid = true`, and otherwise it is `some true` iff
`valid_count >= ceil(N / 2)` where `N` is the number of dispatched
providers (errored and unknown providers counted in `N`). -/
theorem claim_C2 (email : String)
    (outcomes : List (String × Except String VerificationResult))
    (_hne : outcomes ≠ []) :
    ((verify_email_all email outcomes).1.is_valid = none ↔ countValid outcomes = 0) ∧
    (0 < countValid outcomes →
      ((verify_email_all email outcomes).1.is_valid = some true ↔
        ⌈(outcomes.length : ℚ) / 2⌉ ≤ (countValid outcomes : ℤ))) := by
  have hiv := verify_email_all_is_valid email outcomes
  by_cases h : 0 < countValid outcomes
  · rw [if_pos h] at hiv
    constructor
    · rw [hiv]; simp; omega
    · intro _
      rw [hiv]
      simp only [Option.some.injEq, decide_eq_true_eq]
      exact half_le_iff_ceil_le outcomes.length (countValid outcomes)
  · rw [if_neg h] at hiv
    constructor
    · rw [hiv]; simp; omega
    · intro hc; exact absurd hc h

/-- C2 (witness): 4 enabled adapters reporting true, true, false,
unknown give aggregate `is_valid = some true` (2 >= ceil(4/2)). -/
theorem claim_C2_witness :
    (verify_email_all "a@x.com" exC2).1.is_valid = some true := by
  have h := (claim_C2 "a@x.com" exC2 (by decide)).2 (by decide)
  refine h.mpr ?_
  have hc : countValid exC2 = 2 := by decide
  rw [hc, Int.ceil_le]
  norm_num [exC2]

/-- C6: the aggregate `score` is absent when no dispatched provider
returned a score, and otherwise is the arithmetic mean of exactly the
scores present among the returned results (absent scores excluded from
numerator and denominator). -/
theorem claim_C6 (email : String)
    (outcomes : List (String × Except String VerificationResult)) :
    (okScores outcomes = [] → (verify_email_all email outcomes).1.score = none) ∧
    (okScores outcomes ≠ [] →
      (verify_email_all email outcomes).1.score =
        some ((okScores outcomes).sum / ((okScores outcomes).length : ℚ))) := by
  have hs := verify_email_all_score email outcomes
  constructor
  · intro h
    rw [hs, h]
    simp
  · intro h
    rw [hs, if_pos (List.length_pos.mpr h)]

/-- C6 (witness): providers reporting scores 0.8, 0.6, absent, absent
yield aggregate `score = 0.7`. -/
theorem claim_C6_witness :
    (verify_email_all "a@x.com" exC6).1.score = some (7/10) := by
  have h := (claim_C6 "a@x.com" exC6).2 (by decide)
  rw [h]
  have hsc : okScores exC6 = [4/5, 3/5] := by rfl
  rw [hsc]
  norm_num

/-- C5: in an aggregate call over distinctly named adapters of which
exactly one raised, the `results` mapping has exactly one entry per
dispatched adapter, `verified_by` equals the number of dispatched
adapters, and the failed adapter appears with `error` set to the raised
message and `provider` set to its own name. -/
theorem claim_C5 (email : String)
    (outcomes : List (String × Except String VerificationResult))
    (hnd : (outcomes.map Prod.fst).Nodup)
    (_hone : outcomes.countP isErrOutcome = 1) :
    (verify_email_all email outcomes).1.results.length = outcomes.length ∧
    (verify_email_all email outcomes).1.verified_by = outcomes.length ∧
    ∀ o ∈ outcomes, ∀ e, o.2 = .error e →
      (o.1, (⟨some email, none, none, some o.1, some e, none⟩ : VerificationResult)) ∈
        (verify_email_all email outcomes).1.results := by
  have hres := verify_email_all_results email outcomes hnd
  refine ⟨by rw [hres]; simp, verify_email_all_verified_by email outcomes hnd, ?_⟩
  intro o ho e he
  rw [hres]
  refine List.mem_map.mpr ⟨o, ho, ?_⟩
  rcases o with ⟨n, x⟩
  simp only at he
  subst he
  rfl

/-- C5 (witness): three dispatched adapters, the second of which raised
`"boom"`. -/
theorem claim_C5_witness :
    (verify_email_all "a@x.com" exC5).1.results.length = 3 ∧
    (verify_email_all "a@x.com" exC5).1.verified_by = 3 ∧
    ("badsvc", (⟨some "a@x.com", none, none, some "badsvc", some "boom", none⟩ :
        VerificationResult)) ∈ (verify_email_all "a@x.com" exC5).1.results := by
  have h := claim_C5 "a@x.com" exC5 (by decide) (by decide)
  exact ⟨h.1, h.2.1, h.2.2 ("badsvc", .error "boom") (by decide) "boom" rfl⟩

/-- C10: over distinctly named adapters, a raised task's synthesized
entry `{email, error, provider}` is present in the `results` mapping and
counted in `verified_by`, while the Result Store receives exactly the
rows of the results actually returned by adapter tasks (synthesized
entries are never persisted). -/
theorem claim_C10 (email : String)
    (outcomes : List (String × Except String VerificationResult))
    (hnd : (outcomes.map Prod.fst).Nodup) :
    (verify_email_all email outcomes).2 =
      ((okResults outcomes).map storeVerificationResult).flatten ∧
    (verify_email_all email outcomes).1.verified_by = outcomes.length ∧
    ∀ o ∈ outcomes, ∀ e, o.2 = .error e →
      (o.1, (⟨some email, none, none, some o.1, some e, none⟩ : VerificationResult)) ∈
        (verify_email_all email outcomes).1.results := by
  refine ⟨verify_email_all_writes email outcomes,
    verify_email_all_verified_by email outcomes hnd, ?_⟩
  intro o ho e he
  rw [verify_email_all_results email outcomes hnd]
  refine List.mem_map.mpr ⟨o, ho, ?_⟩
  rcases o with ⟨n, x⟩
  simp only at he
  subst he
  rfl

/-- C10 (witness): one returned result next to one raised task — the
store receives exactly the returned result's row, and the synthesized
entry appears in `results`. -/
theorem claim_C10_witness :
    (verify_email_all "a@x.com" exC10).2 =
      [⟨some "a@x.com", some true, some 1, some "zerobounce", some "zb"⟩] ∧
    ("badsvc", (⟨some "a@x.com", none, none, some "badsvc", some "boom", none⟩ :
        VerificationResult)) ∈ (verify_email_all "a@x.com" exC10).1.results := by
  have h := claim_C10 "a@x.com" exC10 (by decide)
  refine ⟨?_, h.2.2 ("badsvc", .error "boom") (by decide) "boom" rfl⟩
  rw [h.1]
  rfl

/-- C3 (counterexample): the NeutrinoAPI adapter with no configured
credentials reports `error = "API credentials not provided"`, not
`"API key not provided"` (the other four adapters use the latter). -/
theorem claim_C3_counterexample :
    (NeutrinoAPIService.verify_email none none (.error "offline") "a@x.com").1.error =
      some "API credentials not provided" ∧
    (NeutrinoAPIService.verify_email none none (.error "offline") "a@x.com").1.error ≠
      some "API key not provided" ∧
    (NeutrinoAPIService.verify_email none none (.error "offline") "a@x.com").1.is_valid =
      none ∧
    (NeutrinoAPIService.verify_email none none (.error "offline") "a@x.com").2 = false := by
  refine ⟨rfl, ?_, rfl, rfl⟩
  intro h
  simp [NeutrinoAPIService.verify_email, truthy] at h

/-- C3 (amended): every adapter whose required credential is not
configured returns, for every address and network, `is_valid = unknown`
and performs no network call, with `error = "API key not provided"` for
ZeroBounce, MailboxLayer, Spokeo and Hunter, and `error = "API
credentials not provided"` for NeutrinoAPI (which needs both a user id
and a key). -/
theorem claim_C3 :
    (∀ (email : String) (k : Option String) (net : Except String ZeroBounceData),
      truthy k = false →
        ZeroBounceService.verify_email k net email =
          ({ email := some email, is_valid := none, error := some "API key not provided", provider := some "zerobounce" }, false)) ∧
    (∀ (email : String) (k : Option String) (net : Except String MailboxLayerData),
      truthy k = false →
        MailboxLayerService.verify_email k net email =
          ({ email := some email, is_valid := none, error := some "API key not provided", provider := some "mailboxlayer" }, false)) ∧
    (∀ (email : String) (k : Option String) (net : Except String SpokeoData),
      truthy k = false →
        SpokeoService.verify_email k net email =
          ({ email := some email, is_valid := none, error := some "API key not provided", provider := some "spokeo" }, false)) ∧
    (∀ (email : String) (k : Option String) (net : Except String HunterData),
      truthy k = false →
        HunterService.verify_email k net email =
          ({ email := some email, is_valid := none, error := some "API key not provided", provider := some "hunter" }, false)) ∧
    (∀ (email : String) (uid k : Option String) (net : Except String NeutrinoData),
      (truthy k && truthy uid) = false →
        NeutrinoAPIService.verify_email uid k net email =
          ({ email := some email, is_valid := none, error := some "API credentials not provided", provider := some "neutrinoapi" }, false)) := by
  refine ⟨?_, ?_, ?_, ?_, ?_⟩
  · intro email k net hk
    simp [ZeroBounceService.verify_email, hk]
  · intro email k net hk
    simp [MailboxLayerService.verify_email, hk]
  · intro email k net hk
    simp [SpokeoService.verify_email, hk]
  · intro email k net hk
    simp [HunterService.verify_email, hk]
  · intro email uid k net hk
    simp [NeutrinoAPIService.verify_email, hk]

/-- C3 (witness): the amended claim applied to ZeroBounce and
NeutrinoAPI with unset credentials. -/
theorem claim_C3_witness :
    ZeroBounceService.verify_email none (.error "offline") "a@x.com" =
      ({ email := some "a@x.com", is_valid := none, error := some "API key not provided", provider := some "zerobounce" }, false) ∧
    NeutrinoAPIService.verify_email none none (.error "offline") "a@x.com" =
      ({ email := some "a@x.com", is_valid := none, error := some "API credentials not provided", provider := some "neutrinoapi" }, false) :=
  ⟨claim_C3.1 "a@x.com" none (.error "offline") rfl,
   claim_C3.2.2.2.2 "a@x.com" none none (.error "offline") rfl⟩

/-- Counting `true` among a list of boolean checks and dividing by the
list length always lands in `[0, 1]`. -/
theorem count_div_length_bounds (l : List Bool) :
    0 ≤ ((l.count true : ℚ) / (l.length : ℚ)) ∧
      ((l.count true : ℚ) / (l.length : ℚ)) ≤ 1 := by
  constructor
  · positivity
  · rcases l with _ | ⟨b, t⟩
    · simp
    · apply div_le_one_of_le₀
      · exact_mod_cast List.count_le_length true (b :: t)
      · positivity

/-- C4 (counterexample): the Hunter adapter forwards the
provider-reported score verbatim, so a provider response with
`score = 42` yields a returned `score = 42`, outside `[0, 1]`. -/
theorem claim_C4_counterexample :
    (HunterService.verify_email (some "k")
        (.ok { status := some "valid", score := some 42 }) "a@x.com").1.score = some 42 ∧
    ¬ (∀ s : ℚ,
        (HunterService.verify_email (some "k")
          (.ok { status := some "valid", score := some 42 }) "a@x.com").1.score = some s →
        0 ≤ s ∧ s ≤ 1) := by
  refine ⟨rfl, ?_⟩
  intro hall
  have h := (hall 42 rfl).2
  norm_num at h

/-- C4 (amended): for the ZeroBounce, MailboxLayer, NeutrinoAPI and
Spokeo adapters every score present in a returned result lies in
`[0, 1]`; the Hunter adapter instead returns the provider-reported
score verbatim (`data.get("score", 0)`), which need not lie in
`[0, 1]`. -/
theorem claim_C4 :
    (∀ (email : String) (k : Option String) (net : Except String ZeroBounceData) (s : ℚ),
      (ZeroBounceService.verify_email k net email).1.score = some s → 0 ≤ s ∧ s ≤ 1) ∧
    (∀ (email : String) (k : Option String) (net : Except String MailboxLayerData) (s : ℚ),
      (MailboxLayerService.verify_email k net email).1.score = some s → 0 ≤ s ∧ s ≤ 1) ∧
    (∀ (email : String) (uid k : Option String) (net : Except String NeutrinoData) (s : ℚ),
      (NeutrinoAPIService.verify_email uid k net email).1.score = some s → 0 ≤ s ∧ s ≤ 1) ∧
    (∀ (email : String) (k : Option String) (net : Except String SpokeoData) (s : ℚ),
      (SpokeoService.verify_email k net email).1.score = some s → 0 ≤ s ∧ s ≤ 1) ∧
    (∀ (email : String) (k : Option String) (d : HunterData),
      truthy k = true →
        (HunterService.verify_email k (.ok d) email).1.score = some (d.score.getD 0)) := by
  refine ⟨?_, ?_, ?_, ?_, ?_⟩
  · intro email k net s h
    by_cases hk : truthy k = true
    · cases net with
      | ok d =>
          simp [ZeroBounceService.verify_email, hk] at h
          split at h <;> simp_all <;> norm_num [← h]
      | error e => simp [ZeroBounceService.verify_email, hk] at h
    · simp [ZeroBounceService.verify_email, hk] at h
  · intro email k net s h
    by_cases hk : truthy k = true
    · cases net with
      | ok d =>
          cases hinfo : d.error_info with
          | some info => simp [MailboxLayerService.verify_email, hk, hinfo] at h
          | none =>
              simp [MailboxLayerService.verify_email, hk, hinfo] at h
              rw [← h]
              exact count_div_length_bounds _
      | error e => simp [MailboxLayerService.verify_email, hk] at h
    · simp [MailboxLayerService.verify_email, hk] at h
  · intro email uid k net s h
    by_cases hk : (truthy k && truthy uid) = true
    · cases net with
      | ok d =>
          simp [NeutrinoAPIService.verify_email, hk] at h
          rw [← h]
          exact count_div_length_bounds _
      | error e => simp [NeutrinoAPIService.verify_email, hk] at h
    · simp [NeutrinoAPIService.verify_email, hk] at h
  · intro email k net s h
    by_cases hk : truthy k = true
    · cases net with
      | ok d =>
          simp [SpokeoService.verify_email, hk] at h
          split at h <;> simp_all <;> norm_num [← h]
      | error e => simp [SpokeoService.verify_email, hk] at h
    · simp [SpokeoService.verify_email, hk] at h
  · intro email k d hk
    simp [HunterService.verify_email, hk]

/-- C4 (witness): a MailboxLayer response passing four of the five
checks scores `4/5`, inside `[0, 1]`. -/
theorem claim_C4_witness :
    (MailboxLayerService.verify_email (some "k")
        (.ok { format_valid := some true, mx_found := some true, smtp_check := some true,
               disposable := some false, free := some true }) "a@x.com").1.score =
      some (4/5) ∧ 0 ≤ (4/5 : ℚ) ∧ (4/5 : ℚ) ≤ 1 := by
  refine ⟨?_, ?_⟩
  · show some (((4 : ℕ) : ℚ) / ((5 : ℕ) : ℚ)) = some (4/5)
    norm_num
  · exact claim_C4.2.1 "a@x.com" (some "k")
      (.ok { format_valid := some true, mx_found := some true, smtp_check := some true,
             disposable := some false, free := some true }) (4/5)
      (by show some (((4 : ℕ) : ℚ) / ((5 : ℕ) : ℚ)) = some (4/5); norm_num)

/-- C7 (amended): an aggregate call with zero enabled adapters returns
the error dict — no `is_valid` key, `error = "No verification services
are configured with API keys"` — and writes nothing to the Result
Store.  (The claim's quoted string "no services configured" does not
match the code's message.) -/
theorem claim_C7 (services : List (String × ServiceModel)) (email : String)
    (h : get_available_services services = []) :
    EmailVerificationManager.verify_email_run services email none =
      .ok (.failure email "No verification services are configured with API keys", []) ∧
    ∀ resp rows,
      EmailVerificationManager.verify_email_run services email none = .ok (resp, rows) →
        resp.getIsValid = none ∧
        resp.getError = some "No verification services are configured with API keys" ∧
        rows = [] := by
  have h1 : EmailVerificationManager.verify_email_run services email none =
      .ok (.failure email "No verification services are configured with API keys", []) := by
    simp [EmailVerificationManager.verify_email_run, EmailVerificationManager.verify_email, h]
  refine ⟨h1, ?_⟩
  intro resp rows heq
  rw [h1] at heq
  simp only [Except.ok.injEq, Prod.mk.injEq] at heq
  obtain ⟨h2, h3⟩ := heq
  subst h2
  subst h3
  exact ⟨rfl, rfl, rfl⟩

/-- C7 (witness): the real registry with no credentials configured. -/
theorem claim_C7_witness :
    EmailVerificationManager.verify_email_run
        (EmailVerificationManager.services {} offlineOracle) "a@x.com" none =
      .ok (.failure "a@x.com" "No verification services are configured with API keys", []) :=
  (claim_C7 (EmailVerificationManager.services {} offlineOracle) "a@x.com" rfl).1

/-- C7 (counterexample): the error string of the zero-adapter aggregate
call is `"No verification services are configured with API keys"`, not
the claimed `"no services configured"`. -/
theorem claim_C7_counterexample :
    EmailVerificationManager.verify_email_run
        (EmailVerificationManager.services {} offlineOracle) "a@x.com" none =
      .ok (.failure "a@x.com" "No verification services are configured with API keys", []) ∧
    ∀ resp rows,
      EmailVerificationManager.verify_email_run
          (EmailVerificationManager.services {} offlineOracle) "a@x.com" none =
        .ok (resp, rows) →
      resp.getError ≠ some "no services configured" := by
  have h1 : EmailVerificationManager.verify_email_run
      (EmailVerificationManager.services {} offlineOracle) "a@x.com" none =
      .ok (.failure "a@x.com" "No verification services are configured with API keys", []) := rfl
  refine ⟨h1, ?_⟩
  intro resp rows heq
  rw [h1] at heq
  simp only [Except.ok.injEq, Prod.mk.injEq] at heq
  obtain ⟨h2, _h3⟩ := heq
  subst h2
  simp [ManagerResponse.getError]

/-- C9 (amended): with no credentials configured, naming any of the five
registry services bypasses the enablement check (nothing is enabled, yet
the adapter runs), returns the adapter's missing-credential result
(`"API key not provided"`, or `"API credentials not provided"` for
NeutrinoAPI) with `is_valid` absent, and persists exactly one Result
Store row for it with `is_valid` absent. -/
theorem claim_C9 (net : NetworkOracle) (email : String) :
    (EmailVerificationManager.verify_email_run
        (EmailVerificationManager.services {} net) email (some "zerobounce") =
      .ok (.single ⟨some email, none, none, some "zerobounce", some "API key not provided", none⟩,
           [⟨some email, none, none, some "zerobounce", none⟩])) ∧
    (EmailVerificationManager.verify_email_run
        (EmailVerificationManager.services {} net) email (some "mailboxlayer") =
      .ok (.single ⟨some email, none, none, some "mailboxlayer", some "API key not provided", none⟩,
           [⟨some email, none, none, some "mailboxlayer", none⟩])) ∧
    (EmailVerificationManager.verify_email_run
        (EmailVerificationManager.services {} net) email (some "neutrinoapi") =
      .ok (.single ⟨some email, none, none, some "neutrinoapi", some "API credentials not provided", none⟩,
           [⟨some email, none, none, some "neutrinoapi", none⟩])) ∧
    (EmailVerificationManager.verify_email_run
        (EmailVerificationManager.services {} net) email (some "spokeo") =
      .ok (.single ⟨some email, none, none, some "spokeo", some "API key not provided", none⟩,
           [⟨some email, none, none, some "spokeo", none⟩])) ∧
    (EmailVerificationManager.verify_email_run
        (EmailVerificationManager.services {} net) email (some "hunter") =
      .ok (.single ⟨some email, none, none, some "hunter", some "API key not provided", none⟩,
           [⟨some email, none, none, some "hunter", none⟩])) ∧
    get_available_services (EmailVerificationManager.services {} net) = [] :=
  ⟨rfl, rfl, rfl, rfl, rfl, rfl⟩

/-- C9 (counterexample): naming `"neutrinoapi"` with no credentials
configured returns and persists a result whose `error` is `"API
credentials not provided"`, not the claimed `"API key not provided"`. -/
theorem claim_C9_counterexample :
    (EmailVerificationManager.verify_email_run
        (EmailVerificationManager.services {} offlineOracle) "a@x.com" (some "neutrinoapi") =
      .ok (.single ⟨some "a@x.com", none, none, some "neutrinoapi", some "API credentials not provided", none⟩,
           [⟨some "a@x.com", none, none, some "neutrinoapi", none⟩])) ∧
    ((⟨some "a@x.com", none, none, some "neutrinoapi", some "API credentials not provided", none⟩ :
        VerificationResult).error ≠ some "API key not provided") := by
  refine ⟨rfl, ?_⟩
  simp

/-- Sequencing an `Except` computation after a success just continues. -/
theorem exceptBind_ok {ε α β : Type} (a : α) (f : α → Except ε β) :
    (Except.ok a >>= f : Except ε β) = f a := rfl

/-- The aggregate branch never raises: `verify_email` with no provider
always returns a response dict. -/
theorem verify_email_run_none_ok (services : List (String × ServiceModel)) (email : String) :
    ∃ p, EmailVerificationManager.verify_email_run services email none = .ok p := by
  simp only [EmailVerificationManager.verify_email_run, EmailVerificationManager.verify_email]
  split
  · exact ⟨_, rfl⟩
  · exact ⟨_, rfl⟩

/-- The no-provider bulk loop always succeeds and yields one response
per input address, in input order. -/
theorem bulkLoop_ok (services : List (String × ServiceModel)) :
    ∀ emails : List String,
      ∃ q, bulkLoop services emails = .ok q ∧ q.1.length = emails.length := by
  intro emails
  induction emails with
  | nil => exact ⟨([], []), rfl, rfl⟩
  | cons e rest ih =>
      obtain ⟨p, hp⟩ := verify_email_run_none_ok services e
      obtain ⟨q, hq, hlen⟩ := ih
      refine ⟨(p.1 :: q.1, p.2 ++ q.2), ?_, by simp [hlen]⟩
      simp [bulkLoop, hp, hq, exceptBind_ok]

/-- C8: a no-provider bulk verification of `["a@x.com", "a@x.com"]`
against a manager with exactly one enabled adapter produces two Result
Store rows (one per call) and an output sequence of length 2 matching
the input order; in general, no-provider bulk verification yields one
output per input address (repeated addresses are never deduplicated). -/
theorem claim_C8 (services : List (String × ServiceModel)) (n : String) (s : ServiceModel)
    (r : VerificationResult)
    (hav : services.filter (fun p => p.2.hasKey) = [(n, s)])
    (hr : s.verify "a@x.com" = .ok r)
    (he : r.email.isSome = true) :
    EmailVerificationManager.bulk_verify services ["a@x.com", "a@x.com"] none =
      .ok (.list [.aggregate (verify_email_all "a@x.com" [(n, Except.ok r)]).1,
                  .aggregate (verify_email_all "a@x.com" [(n, Except.ok r)]).1],
           storeVerificationResult r ++ storeVerificationResult r) ∧
    (storeVerificationResult r ++ storeVerificationResult r).length = 2 ∧
    ∀ emails : List String, emails ≠ [] →
      ∃ q, bulkLoop services emails = .ok q ∧ q.1.length = emails.length ∧
        EmailVerificationManager.bulk_verify services emails none = .ok (.list q.1, q.2) := by
  have hdisp : dispatched services "a@x.com" = [(n, Except.ok r)] := by
    simp only [dispatched]
    rw [hav]
    simp [hr]
  have hgas : get_available_services services = [n] := by
    simp only [get_available_services]
    rw [hav]
    rfl
  have hW : (verify_email_all "a@x.com" [(n, Except.ok r)]).2 = storeVerificationResult r := by
    rw [verify_email_all_writes]
    simp [okResults, Except.toOption]
  have hrun : EmailVerificationManager.verify_email_run services "a@x.com" none =
      .ok (.aggregate (verify_email_all "a@x.com" [(n, Except.ok r)]).1,
           storeVerificationResult r) := by
    simp only [EmailVerificationManager.verify_email_run,
      EmailVerificationManager.verify_email]
    rw [hdisp, hgas]
    simp [hW]
  have hloop : bulkLoop services ["a@x.com", "a@x.com"] =
      .ok ([.aggregate (verify_email_all "a@x.com" [(n, Except.ok r)]).1,
            .aggregate (verify_email_all "a@x.com" [(n, Except.ok r)]).1],
           storeVerificationResult r ++ storeVerificationResult r) := by
    simp [bulkLoop, hrun, exceptBind_ok]
  refine ⟨?_, ?_, ?_⟩
  · simp only [EmailVerificationManager.bulk_verify]
    rw [if_neg (by simp)]
    rw [hloop]
    rfl
  · simp [storeVerificationResult, he]
  · intro emails hne
    obtain ⟨q, hq, hlen⟩ := bulkLoop_ok services emails
    refine ⟨q, hq, hlen, ?_⟩
    simp only [EmailVerificationManager.bulk_verify]
    rw [if_neg hne, hq]
    rfl

/-- C8 (witness): the real registry with only ZeroBounce enabled,
verifying `["a@x.com", "a@x.com"]` in bulk. -/
theorem claim_C8_witness :
    EmailVerificationManager.bulk_verify
        (EmailVerificationManager.services demoConfig demoOracle) ["a@x.com", "a@x.com"] none =
      .ok (.list [.aggregate (verify_email_all "a@x.com" [("zerobounce", Except.ok demoZBResult)]).1,
                  .aggregate (verify_email_all "a@x.com" [("zerobounce", Except.ok demoZBResult)]).1],
           storeVerificationResult demoZBResult ++ storeVerificationResult demoZBResult) :=
  (claim_C8 (EmailVerificationManager.services demoConfig demoOracle) "zerobounce"
    demoZBModel demoZBResult rfl rfl rfl).1
